import Mathlib

/-!
Verification development for the food-waste management dashboard.

The database state (four tables: Providers, Receivers, Food_Listings, Claims)
is embedded as lists of records.  The mutating operations of the application
(`add_listing_form` submit handler, update/delete listing handlers, the
"Mark as Completed" and "Cancel Claim" handlers of the Manage Claims page)
are embedded as functions `DBState → Except DBError DBState`; an `Except.error`
result models an operation that surfaces an error having issued no committed
mutation (the handlers run inside `engine.begin()` transactions, so a failure
rolls everything back).

Dates are modelled as natural numbers (days); the stored `YYYY-MM-DD` strings
compare lexicographically, which agrees with chronological order, so `<` on
`Nat` is a faithful rendering of the date comparisons in the source.

A semantic point that the embedding must get right: the schema declares
`ON DELETE CASCADE` foreign keys, but SQLite only enforces foreign keys when a
connection issues `PRAGMA foreign_keys=ON`, and the application creates its
engine with plain `create_engine('sqlite:///...')`, which never does.  So at
runtime no cascade fires on any statement the application executes.  The rest
of the application confirms this is the operative semantics: the Manage Claims
page reads claims with `LEFT JOIN Food_Listings` because claims outlive their
listings, the "Cancel Claim" handler has an explicit branch for a pending
claim whose listing no longer exists, and the analytics page counts Completed
claims, which survive the deletion of their listing.  Deleting a listing
therefore leaves the claims that reference it in place, with a dangling
`Food_ID`.
-/

namespace FoodWaste

/-- Status column of the Claims table; the schema's CHECK constraint restricts
it to these three values. -/
inductive ClaimStatus where
  | Pending
  | Completed
  | Cancelled
  deriving DecidableEq, Repr

/-- A row of the Providers table. -/
structure Provider where
  providerId : Nat
  name : String
  ptype : String
  address : String
  city : String
  contact : String
  deriving DecidableEq, Repr

/-- A row of the Receivers table. -/
structure Receiver where
  receiverId : Nat
  name : String
  rtype : String
  city : String
  contact : String
  pincode : String
  deriving DecidableEq, Repr

/-- A row of the Food_Listings table. -/
structure FoodListing where
  foodId : Nat
  foodName : String
  quantity : Int
  expiryDate : Nat
  providerId : Nat
  providerType : String
  location : String
  foodType : String
  mealType : String
  deriving DecidableEq, Repr

/-- A row of the Claims table. -/
structure Claim where
  claimId : Nat
  foodId : Nat
  receiverId : Nat
  status : ClaimStatus
  timestamp : Nat
  deriving DecidableEq, Repr

/-- The whole database. -/
structure DBState where
  providers : List Provider
  receivers : List Receiver
  listings : List FoodListing
  claims : List Claim
  deriving DecidableEq, Repr

/-- The error taxonomy of the spec: a pre-mutation validation failure, a
missing/ineligible entity, or a failure raised by the store itself (e.g. a
CHECK-constraint violation surfacing as an exception). -/
inductive DBError where
  | validationError
  | notFoundError
  | storageError
  deriving DecidableEq, Repr

/-- Whether `SELECT ... FROM Receivers WHERE Receiver_ID = rid` is
non-empty. -/
def receiverExists (s : DBState) (rid : Nat) : Bool :=
  s.receivers.any (fun r => r.receiverId == rid)

/-- The Claim_ID column of the Manage Claims page's dataframe when filtered by
status 'Pending': the page query selects claims `WHERE c.Status = 'Pending'`
and inner-joins Receivers on `c.Receiver_ID = r.Receiver_ID` (the join with
Food_Listings is a LEFT JOIN and filters nothing). Both the "Mark as
Completed" and the "Cancel Claim" buttons first check that the entered id is
a member of this column. -/
def pendingClaimIds (s : DBState) : List Nat :=
  (s.claims.filter
    (fun c => c.status == ClaimStatus.Pending && receiverExists s c.receiverId)).map
    (fun c => c.claimId)

/-- The query `SELECT ... FROM Claims WHERE Claim_ID = cid` followed by
`iloc[0]`: the first matching row. -/
def findClaim (s : DBState) (cid : Nat) : Option Claim :=
  s.claims.find? (fun c => c.claimId == cid)

/-- The query `SELECT ... FROM Food_Listings WHERE Food_ID = fid` followed
by `iloc[0]`: the first matching row. -/
def findListing (s : DBState) (fid : Nat) : Option FoodListing :=
  s.listings.find? (fun l => l.foodId == fid)

/-- The "Mark as Completed" handler (src/app.py, Manage Claims page).
Guard: the entered id must be in the displayed Pending set; otherwise the
handler shows "The entered Claim ID is not a valid pending claim." and issues
no statement.  Inside one transaction it reads the claim's Food_ID, sets the
claim's Status to 'Completed', and deletes the Food_Listings row with that
Food_ID.  Foreign keys are not enforced at runtime, so the delete does not
cascade to other claims. -/
def completeClaim (s : DBState) (cid : Nat) : Except DBError DBState :=
  if cid ∈ pendingClaimIds s then
    match findClaim s cid with
    | none => Except.error DBError.storageError
    | some c =>
        Except.ok
          { s with
            claims := s.claims.map
              (fun c2 => if c2.claimId == cid
                then { c2 with status := ClaimStatus.Completed } else c2),
            listings := s.listings.filter (fun l => !(l.foodId == c.foodId)) }
  else Except.error DBError.notFoundError

/-- The "Cancel Claim" handler (src/app.py, Manage Claims page).
Guard: same Pending-set membership check.  Inside one transaction it reads
the listing row whose Food_ID matches the claim's Food_ID (if any), sets the
claim's Status to 'Cancelled', then — only if that listing row exists — deletes
it when its expiry date is strictly before today, and leaves it untouched
otherwise.  When the listing is already absent only the status update runs. -/
def cancelClaim (s : DBState) (today : Nat) (cid : Nat) : Except DBError DBState :=
  if cid ∈ pendingClaimIds s then
    match findClaim s cid with
    | none => Except.error DBError.storageError
    | some c =>
        let claims2 := s.claims.map
          (fun c2 => if c2.claimId == cid
            then { c2 with status := ClaimStatus.Cancelled } else c2)
        match findListing s c.foodId with
        | none => Except.ok { s with claims := claims2 }
        | some l =>
            if l.expiryDate < today then
              Except.ok
                { s with
                  claims := claims2,
                  listings := s.listings.filter (fun l2 => !(l2.foodId == c.foodId)) }
            else Except.ok { s with claims := claims2 }
  else Except.error DBError.notFoundError

/-- SQLite assigns a new INTEGER PRIMARY KEY rowid as one more than the
largest id currently in the table (1 for an empty table); the handler reads
it back as `result.lastrowid`. -/
def nextId (ids : List Nat) : Nat := ids.foldr max 0 + 1

def nextFoodId (s : DBState) : Nat := nextId (s.listings.map (fun l => l.foodId))

def nextClaimId (s : DBState) : Nat := nextId (s.claims.map (fun c => c.claimId))

/-- The call `random.choice(receiver_ids_df['Receiver_ID'].tolist())`, with the random
draw made explicit as the argument `pick`: an arbitrary natural number reduced
modulo the list length, so every receiver is a possible outcome.  Returns
`none` exactly when the Receivers table is empty (the handler's
`receiver_ids_df.empty` branch). -/
def chooseReceiver (rs : List Receiver) (pick : Nat) : Option Receiver :=
  rs[pick % rs.length]?

/-- The query `SELECT Provider_ID, Name FROM Providers` builds `provider_map`
keyed by name; the form's selected name is looked up in it. -/
def findProviderByName (s : DBState) (nm : String) : Option Provider :=
  s.providers.find? (fun p => p.name == nm)

/-- The `add_listing_form` submit handler (src/app.py).  In source order:
an empty provider selection or empty food name is rejected; an expiry date
strictly before today is rejected ("Expiry Date cannot be in the past.");
then, inside one transaction, the provider's Type and City are read and the
listing is inserted (the store's `CHECK (Quantity > 0)` rejects a
non-positive quantity, surfacing as a storage error); finally, if at least
one receiver exists, one receiver is drawn at random and a 'Pending' claim
referencing the new Food_ID is inserted; if none exists the listing stands
alone. -/
def addListing (s : DBState) (today : Nat) (providerName foodName : String)
    (qty : Int) (expiry : Nat) (foodType mealType : String) (pick : Nat) :
    Except DBError DBState :=
  if providerName = "" then Except.error DBError.validationError
  else if foodName = "" then Except.error DBError.validationError
  else if expiry < today then Except.error DBError.validationError
  else
    match findProviderByName s providerName with
    | none => Except.error DBError.notFoundError
    | some p =>
        if qty < 1 then Except.error DBError.storageError
        else
          let fid := nextFoodId s
          let newListing : FoodListing :=
            { foodId := fid, foodName := foodName, quantity := qty,
              expiryDate := expiry, providerId := p.providerId,
              providerType := p.ptype, location := p.city,
              foodType := foodType, mealType := mealType }
          let s1 := { s with listings := s.listings ++ [newListing] }
          match chooseReceiver s.receivers pick with
          | none => Except.ok s1
          | some r =>
              Except.ok
                { s1 with
                  claims := s1.claims ++
                    [{ claimId := nextClaimId s, foodId := fid,
                       receiverId := r.receiverId,
                       status := ClaimStatus.Pending, timestamp := today }] }

/-- The update-listing handler (src/app.py).  The form only renders when a
row with the entered Food_ID exists; a new expiry date strictly before today
is rejected at the call site; the UPDATE statement then sets Quantity and
Expiry_Date on the matching row, with the store's `CHECK (Quantity > 0)`
rejecting a non-positive quantity. -/
def updateListing (s : DBState) (today : Nat) (fid : Nat) (qty : Int)
    (expiry : Nat) : Except DBError DBState :=
  match findListing s fid with
  | none => Except.error DBError.notFoundError
  | some _ =>
      if expiry < today then Except.error DBError.validationError
      else if qty < 1 then Except.error DBError.storageError
      else
        Except.ok
          { s with
            listings := s.listings.map
              (fun l => if l.foodId == fid
                then { l with quantity := qty, expiryDate := expiry } else l) }

/-- The delete-listing handler (src/app.py): `DELETE FROM Food_Listings WHERE
Food_ID = :id`, offered only when the row exists.  Foreign keys are not
enforced at runtime, so claims referencing the deleted listing remain. -/
def deleteListing (s : DBState) (fid : Nat) : Except DBError DBState :=
  match findListing s fid with
  | none => Except.error DBError.notFoundError
  | some _ =>
      Except.ok { s with listings := s.listings.filter (fun l => !(l.foodId == fid)) }

/-- Modelled from the spec: the application has no provider-deletion
operation; only the schema's declarations exist in the source
(`ForeignKey('Providers.Provider_ID', ondelete="CASCADE")` on
Food_Listings.Provider_ID and `ForeignKey('Food_Listings.Food_ID',
ondelete="CASCADE")` on Claims.Food_ID).  Following the spec's words —
"Deleting a Provider removes all its Food_Listings and, transitively, all
Claims referencing those listings" — deleting a provider removes the provider
row, every listing owned by it, and every claim whose Food_ID is one of the
removed listings. -/
def deleteProvider (s : DBState) (pid : Nat) : DBState :=
  let goneFood := (s.listings.filter (fun l => l.providerId == pid)).map
    (fun l => l.foodId)
  { s with
    providers := s.providers.filter (fun p => !(p.providerId == pid)),
    listings := s.listings.filter (fun l => !(l.providerId == pid)),
    claims := s.claims.filter (fun c => !(goneFood.contains c.foodId)) }

/-- Every existing Food_Listings row has a strictly positive quantity (the
schema's `CHECK (Quantity > 0)`). -/
def quantityInv (s : DBState) : Prop :=
  ∀ l ∈ s.listings, 0 < l.quantity

instance (s : DBState) : Decidable (quantityInv s) := by
  unfold quantityInv; infer_instance

/-- States reachable by the application's five mutating operations.  The base
case is any state whose listings all satisfy the quantity CHECK constraint:
the CSV bootstrap inserts through the same SQLite tables, whose CHECK
constraint (enforced regardless of the foreign-key pragma) rejects any
non-positive quantity. -/
inductive Reachable : DBState → Prop where
  | boot (s : DBState) : quantityInv s → Reachable s
  | create (s s' : DBState) (today : Nat) (pn fn : String) (qty : Int)
      (expiry : Nat) (ft mt : String) (pick : Nat) :
      Reachable s → addListing s today pn fn qty expiry ft mt pick = Except.ok s' →
      Reachable s'
  | update (s s' : DBState) (today fid : Nat) (qty : Int) (expiry : Nat) :
      Reachable s → updateListing s today fid qty expiry = Except.ok s' →
      Reachable s'
  | delete (s s' : DBState) (fid : Nat) :
      Reachable s → deleteListing s fid = Except.ok s' → Reachable s'
  | complete (s s' : DBState) (cid : Nat) :
      Reachable s → completeClaim s cid = Except.ok s' → Reachable s'
  | cancel (s s' : DBState) (today cid : Nat) :
      Reachable s → cancelClaim s today cid = Except.ok s' → Reachable s'

/-! ### Shared lemmas about the embedded operations -/

theorem find_key_eq {α : Type} (key : α → Nat) (xs : List α) (x : α)
    (hx : x ∈ xs) (hnd : (xs.map key).Nodup) :
    xs.find? (fun y => key y == key x) = some x := by
  induction xs with
  | nil => cases hx
  | cons h t ih =>
      rw [List.map_cons] at hnd
      rcases List.mem_cons.mp hx with rfl | hxt
      · exact List.find?_cons_of_pos t (by simp)
      · have hkx : key x ∈ t.map key := List.mem_map_of_mem key hxt
        have hne : ¬(key h == key x) = true := by
          intro hcon
          exact (List.nodup_cons.mp hnd).1 (beq_iff_eq.mp hcon ▸ hkx)
        rw [List.find?_cons_of_neg t hne]
        exact ih hxt (List.nodup_cons.mp hnd).2

theorem findClaim_eq (s : DBState) (c : Claim) (hc : c ∈ s.claims)
    (hnd : (s.claims.map (fun x => x.claimId)).Nodup) :
    findClaim s c.claimId = some c :=
  find_key_eq (fun x : Claim => x.claimId) s.claims c hc hnd

theorem findListing_eq (s : DBState) (l : FoodListing) (hl : l ∈ s.listings)
    (hnd : (s.listings.map (fun x => x.foodId)).Nodup) :
    findListing s l.foodId = some l :=
  find_key_eq (fun x : FoodListing => x.foodId) s.listings l hl hnd

theorem mem_pendingClaimIds (s : DBState) (c : Claim) (hc : c ∈ s.claims)
    (hp : c.status = ClaimStatus.Pending)
    (hr : receiverExists s c.receiverId = true) :
    c.claimId ∈ pendingClaimIds s := by
  unfold pendingClaimIds
  exact List.mem_map_of_mem _ (List.mem_filter.mpr ⟨hc, by simp [hp, hr]⟩)

theorem not_mem_pendingClaimIds (s : DBState) (c : Claim) (hc : c ∈ s.claims)
    (hnd : (s.claims.map (fun x => x.claimId)).Nodup)
    (hp : c.status ≠ ClaimStatus.Pending) :
    c.claimId ∉ pendingClaimIds s := by
  intro hmem
  unfold pendingClaimIds at hmem
  rcases List.mem_map.mp hmem with ⟨c2, hc2, hkey⟩
  have hc2mem := (List.mem_filter.mp hc2).1
  have hc2p : c2.status = ClaimStatus.Pending := by
    have := (List.mem_filter.mp hc2).2
    simp only [Bool.and_eq_true, beq_iff_eq] at this
    exact this.1
  have : c2 = c := List.inj_on_of_nodup_map hnd hc2mem hc hkey
  exact hp (this ▸ hc2p)

/-! ### Concrete rows and states used by witnesses and counterexamples -/

def demoProvider : Provider :=
  { providerId := 1, name := "P", ptype := "Restaurant", address := "1 Main St",
    city := "Austin", contact := "555" }

def demoReceiver : Receiver :=
  { receiverId := 1, name := "R", rtype := "NGO", city := "Austin",
    contact := "555", pincode := "73301" }

def demoListing (fid : Nat) (qty : Int) (expiry : Nat) : FoodListing :=
  { foodId := fid, foodName := "Rice", quantity := qty, expiryDate := expiry,
    providerId := 1, providerType := "Restaurant", location := "Austin",
    foodType := "Vegetarian", mealType := "Lunch" }

def demoClaim (cid fid : Nat) (st : ClaimStatus) : Claim :=
  { claimId := cid, foodId := fid, receiverId := 1, status := st, timestamp := 0 }

/-- One listing with two Pending claims on it (claim 1 and its sibling
claim 2). -/
def sSiblings : DBState :=
  { providers := [demoProvider], receivers := [demoReceiver],
    listings := [demoListing 1 5 100],
    claims := [demoClaim 1 1 ClaimStatus.Pending, demoClaim 2 1 ClaimStatus.Pending] }

/-- The state produced by completing claim 1 in `sSiblings`. -/
def sSiblingsAfter : DBState :=
  { providers := [demoProvider], receivers := [demoReceiver],
    listings := [],
    claims := [demoClaim 1 1 ClaimStatus.Completed, demoClaim 2 1 ClaimStatus.Pending] }

/-- One Pending claim on a listing that expired (expiry 5 < today 10). -/
def sExpired : DBState :=
  { providers := [demoProvider], receivers := [demoReceiver],
    listings := [demoListing 1 5 5],
    claims := [demoClaim 1 1 ClaimStatus.Pending] }

/-- One Pending claim on a listing expiring exactly today (expiry 10). -/
def sFresh : DBState :=
  { providers := [demoProvider], receivers := [demoReceiver],
    listings := [demoListing 1 5 10],
    claims := [demoClaim 1 1 ClaimStatus.Pending] }

/-- One claim already Completed and one already Cancelled. -/
def sDone : DBState :=
  { providers := [demoProvider], receivers := [demoReceiver],
    listings := [demoListing 1 5 100],
    claims := [demoClaim 1 1 ClaimStatus.Completed, demoClaim 2 1 ClaimStatus.Cancelled] }

/-! ### Claims -/

/-- Claim C1, counterexample.  The claim asserts that completing a Pending
claim also removes every sibling claim on the same Food_ID.  In `sSiblings`,
claims 1 and 2 both reference Food_ID 1; completing claim 1 deletes the
listing but leaves sibling claim 2 present (the runtime never enables
SQLite foreign-key enforcement, so the declared cascade does not fire). -/
theorem C1_counterexample :
    completeClaim sSiblings 1 = Except.ok sSiblingsAfter ∧
    demoClaim 2 1 ClaimStatus.Pending ∈ sSiblings.claims ∧
    (demoClaim 2 1 ClaimStatus.Pending).foodId =
      (demoClaim 1 1 ClaimStatus.Pending).foodId ∧
    demoClaim 2 1 ClaimStatus.Pending ∈ sSiblingsAfter.claims := by
  refine ⟨rfl, ?_, rfl, ?_⟩ <;> decide

/-- Claim C1 (amended): for every claim whose status is Pending (and whose
receiver exists, as the page's inner join requires), Complete(claim_id)
results in a state where that claim's status is Completed and the
Food_Listing referenced by the claim's Food_ID is absent from storage;
sibling claims referencing that same Food_ID remain present and unchanged,
as do all other rows. -/
theorem C1_complete_pending (s : DBState) (c : Claim)
    (hc : c ∈ s.claims) (hp : c.status = ClaimStatus.Pending)
    (hr : receiverExists s c.receiverId = true)
    (hnd : (s.claims.map (fun x => x.claimId)).Nodup) :
    ∃ s', completeClaim s c.claimId = Except.ok s' ∧
      { c with status := ClaimStatus.Completed } ∈ s'.claims ∧
      (∀ l ∈ s'.listings, l.foodId ≠ c.foodId) ∧
      (∀ l ∈ s.listings, l.foodId ≠ c.foodId → l ∈ s'.listings) ∧
      (∀ c2 ∈ s.claims, c2.claimId ≠ c.claimId → c2 ∈ s'.claims) ∧
      s'.providers = s.providers ∧ s'.receivers = s.receivers := by
  have hmem := mem_pendingClaimIds s c hc hp hr
  have hfc := findClaim_eq s c hc hnd
  unfold completeClaim
  rw [if_pos hmem, hfc]
  refine ⟨_, rfl, ?_, ?_, ?_, ?_, rfl, rfl⟩
  · exact List.mem_map.mpr ⟨c, hc, by simp⟩
  · intro l hl
    have := (List.mem_filter.mp hl).2
    simpa using this
  · intro l hl hne
    exact List.mem_filter.mpr ⟨hl, by simpa using hne⟩
  · intro c2 hc2 hne
    exact List.mem_map.mpr ⟨c2, hc2, by simp [hne]⟩

/-- Witness for C1: completing claim 1 of `sSiblings`. -/
theorem C1_witness :
    ∃ s', completeClaim sSiblings (demoClaim 1 1 ClaimStatus.Pending).claimId =
        Except.ok s' ∧
      { demoClaim 1 1 ClaimStatus.Pending with status := ClaimStatus.Completed } ∈
        s'.claims ∧
      (∀ l ∈ s'.listings, l.foodId ≠ (demoClaim 1 1 ClaimStatus.Pending).foodId) ∧
      (∀ l ∈ sSiblings.listings,
        l.foodId ≠ (demoClaim 1 1 ClaimStatus.Pending).foodId → l ∈ s'.listings) ∧
      (∀ c2 ∈ sSiblings.claims,
        c2.claimId ≠ (demoClaim 1 1 ClaimStatus.Pending).claimId → c2 ∈ s'.claims) ∧
      s'.providers = sSiblings.providers ∧ s'.receivers = sSiblings.receivers :=
  C1_complete_pending sSiblings (demoClaim 1 1 ClaimStatus.Pending)
    (by decide) (by decide) (by decide) (by decide)

/-- Claim C2: cancelling a Pending claim whose listing still exists and has
expiry date strictly before today sets the claim's status to Cancelled and
deletes the listing from storage. -/
theorem C2_cancel_expired (s : DBState) (today : Nat) (c : Claim) (l : FoodListing)
    (hc : c ∈ s.claims) (hp : c.status = ClaimStatus.Pending)
    (hr : receiverExists s c.receiverId = true)
    (hnd : (s.claims.map (fun x => x.claimId)).Nodup)
    (hl : l ∈ s.listings) (hlf : l.foodId = c.foodId)
    (hnf : (s.listings.map (fun x => x.foodId)).Nodup)
    (hexp : l.expiryDate < today) :
    ∃ s', cancelClaim s today c.claimId = Except.ok s' ∧
      { c with status := ClaimStatus.Cancelled } ∈ s'.claims ∧
      (∀ l2 ∈ s'.listings, l2.foodId ≠ c.foodId) := by
  have hmem := mem_pendingClaimIds s c hc hp hr
  have hfc := findClaim_eq s c hc hnd
  have hfl : findListing s c.foodId = some l := by
    rw [← hlf]; exact findListing_eq s l hl hnf
  unfold cancelClaim
  rw [if_pos hmem, hfc]
  simp only [hfl, if_pos hexp]
  refine ⟨_, rfl, ?_, ?_⟩
  · exact List.mem_map.mpr ⟨c, hc, by simp⟩
  · intro l2 hl2
    have := (List.mem_filter.mp hl2).2
    simpa using this

/-- Witness for C2: cancelling claim 1 of `sExpired` on day 10 (the listing
expired on day 5). -/
theorem C2_witness :
    ∃ s', cancelClaim sExpired 10 (demoClaim 1 1 ClaimStatus.Pending).claimId =
        Except.ok s' ∧
      { demoClaim 1 1 ClaimStatus.Pending with status := ClaimStatus.Cancelled } ∈
        s'.claims ∧
      (∀ l2 ∈ s'.listings, l2.foodId ≠ (demoClaim 1 1 ClaimStatus.Pending).foodId) :=
  C2_cancel_expired sExpired 10 (demoClaim 1 1 ClaimStatus.Pending)
    (demoListing 1 5 5) (by decide) (by decide) (by decide) (by decide)
    (by decide) (by decide) (by decide) (by decide)

/-- Claim C3: cancelling a Pending claim whose listing still exists and has
expiry date on or after today sets the claim's status to Cancelled and leaves
the Food_Listings table entirely unchanged, so the listing stays present with
its quantity, expiry date and all other fields intact. -/
theorem C3_cancel_fresh (s : DBState) (today : Nat) (c : Claim) (l : FoodListing)
    (hc : c ∈ s.claims) (hp : c.status = ClaimStatus.Pending)
    (hr : receiverExists s c.receiverId = true)
    (hnd : (s.claims.map (fun x => x.claimId)).Nodup)
    (hl : l ∈ s.listings) (hlf : l.foodId = c.foodId)
    (hnf : (s.listings.map (fun x => x.foodId)).Nodup)
    (hexp : today ≤ l.expiryDate) :
    ∃ s', cancelClaim s today c.claimId = Except.ok s' ∧
      { c with status := ClaimStatus.Cancelled } ∈ s'.claims ∧
      s'.listings = s.listings ∧ l ∈ s'.listings ∧
      s'.providers = s.providers ∧ s'.receivers = s.receivers := by
  have hmem := mem_pendingClaimIds s c hc hp hr
  have hfc := findClaim_eq s c hc hnd
  have hfl : findListing s c.foodId = some l := by
    rw [← hlf]; exact findListing_eq s l hl hnf
  have hlt : ¬ l.expiryDate < today := by omega
  unfold cancelClaim
  rw [if_pos hmem, hfc]
  simp only [hfl, if_neg hlt]
  refine ⟨_, rfl, ?_, rfl, hl, rfl, rfl⟩
  exact List.mem_map.mpr ⟨c, hc, by simp⟩

/-- Witness for C3: cancelling claim 1 of `sFresh` on day 10 (the listing
expires on day 10, i.e. today, so it is kept). -/
theorem C3_witness :
    ∃ s', cancelClaim sFresh 10 (demoClaim 1 1 ClaimStatus.Pending).claimId =
        Except.ok s' ∧
      { demoClaim 1 1 ClaimStatus.Pending with status := ClaimStatus.Cancelled } ∈
        s'.claims ∧
      s'.listings = sFresh.listings ∧ demoListing 1 5 10 ∈ s'.listings ∧
      s'.providers = sFresh.providers ∧ s'.receivers = sFresh.receivers :=
  C3_cancel_fresh sFresh 10 (demoClaim 1 1 ClaimStatus.Pending)
    (demoListing 1 5 10) (by decide) (by decide) (by decide) (by decide)
    (by decide) (by decide) (by decide) (by decide)

/-- Claim C4: for a claim whose status is already Completed or Cancelled,
both the "Mark as Completed" and the "Cancel Claim" handlers fail with a
NotFoundError ("The entered Claim ID is not a valid pending claim.").  In the
source this branch issues no SQL statement at all, so the database state is
unchanged; in the embedding the error result carries no state. -/
theorem C4_terminal_rejected (s : DBState) (today : Nat) (c : Claim)
    (hc : c ∈ s.claims)
    (hnd : (s.claims.map (fun x => x.claimId)).Nodup)
    (hst : c.status = ClaimStatus.Completed ∨ c.status = ClaimStatus.Cancelled) :
    completeClaim s c.claimId = Except.error DBError.notFoundError ∧
    cancelClaim s today c.claimId = Except.error DBError.notFoundError := by
  have hnp : c.status ≠ ClaimStatus.Pending := by
    rcases hst with h | h <;> simp [h]
  have hnm := not_mem_pendingClaimIds s c hc hnd hnp
  constructor
  · unfold completeClaim; rw [if_neg hnm]
  · unfold cancelClaim; rw [if_neg hnm]

/-- Witness for C4: claim 1 of `sDone` is Completed and claim 2 is Cancelled;
both handlers reject claim 1. -/
theorem C4_witness :
    completeClaim sDone (demoClaim 1 1 ClaimStatus.Completed).claimId =
      Except.error DBError.notFoundError ∧
    cancelClaim sDone 10 (demoClaim 1 1 ClaimStatus.Completed).claimId =
      Except.error DBError.notFoundError :=
  C4_terminal_rejected sDone 10 (demoClaim 1 1 ClaimStatus.Completed)
    (by decide) (by decide) (Or.inl (by decide))

/-- Claim C5: a create request whose expiry date is strictly before today is
rejected by the submit handler's pre-check ("Expiry Date cannot be in the
past.") with a validation error, before any statement is issued, so no
Food_Listings row and no Claims row is persisted. -/
theorem C5_past_expiry_rejected (s : DBState) (today : Nat) (pn fn : String)
    (qty : Int) (expiry : Nat) (ft mt : String) (pick : Nat)
    (hexp : expiry < today) :
    addListing s today pn fn qty expiry ft mt pick =
      Except.error DBError.validationError := by
  unfold addListing
  by_cases h1 : pn = ""
  · rw [if_pos h1]
  · rw [if_neg h1]
    by_cases h2 : fn = ""
    · rw [if_pos h2]
    · rw [if_neg h2, if_pos hexp]

/-- Witness for C5: creating a listing on day 10 with expiry day 3 fails. -/
theorem C5_witness :
    addListing sSiblings 10 "P" "Rice" 5 3 "Vegetarian" "Lunch" 0 =
      Except.error DBError.validationError :=
  C5_past_expiry_rejected sSiblings 10 "P" "Rice" 5 3 "Vegetarian" "Lunch" 0
    (by decide)

/-- One Pending claim (claim 1) whose Food_ID 7 references no listing. -/
def sDangling : DBState :=
  { providers := [demoProvider], receivers := [demoReceiver],
    listings := [], claims := [demoClaim 1 7 ClaimStatus.Pending] }

/-- Claim C9: cancelling a Pending claim whose Food_ID references no existing
listing succeeds, sets that claim's status to Cancelled, and changes nothing
else: providers, receivers and listings are untouched and the claims table is
exactly the old one with only that claim's status rewritten. -/
theorem C9_cancel_dangling (s : DBState) (today : Nat) (c : Claim)
    (hc : c ∈ s.claims) (hp : c.status = ClaimStatus.Pending)
    (hr : receiverExists s c.receiverId = true)
    (hnd : (s.claims.map (fun x => x.claimId)).Nodup)
    (hnl : ∀ l ∈ s.listings, l.foodId ≠ c.foodId) :
    ∃ s', cancelClaim s today c.claimId = Except.ok s' ∧
      s'.providers = s.providers ∧ s'.receivers = s.receivers ∧
      s'.listings = s.listings ∧
      s'.claims = s.claims.map (fun c2 => if c2.claimId == c.claimId
        then { c2 with status := ClaimStatus.Cancelled } else c2) ∧
      { c with status := ClaimStatus.Cancelled } ∈ s'.claims := by
  have hmem := mem_pendingClaimIds s c hc hp hr
  have hfc := findClaim_eq s c hc hnd
  have hfl : findListing s c.foodId = none :=
    List.find?_eq_none.mpr (fun l hl => by simpa using hnl l hl)
  unfold cancelClaim
  rw [if_pos hmem, hfc]
  simp only [hfl]
  refine ⟨_, rfl, rfl, rfl, rfl, rfl, ?_⟩
  exact List.mem_map.mpr ⟨c, hc, by simp⟩

/-- Witness for C9: cancelling the dangling claim 1 of `sDangling`. -/
theorem C9_witness :
    ∃ s', cancelClaim sDangling 10 (demoClaim 1 7 ClaimStatus.Pending).claimId =
        Except.ok s' ∧
      s'.providers = sDangling.providers ∧ s'.receivers = sDangling.receivers ∧
      s'.listings = sDangling.listings ∧
      s'.claims = sDangling.claims.map (fun c2 =>
        if c2.claimId == (demoClaim 1 7 ClaimStatus.Pending).claimId
        then { c2 with status := ClaimStatus.Cancelled } else c2) ∧
      { demoClaim 1 7 ClaimStatus.Pending with status := ClaimStatus.Cancelled } ∈
        s'.claims :=
  C9_cancel_dangling sDangling 10 (demoClaim 1 7 ClaimStatus.Pending)
    (by decide) (by decide) (by decide) (by decide) (by decide)

/-- Claim C10: completing a Pending claim whose Food_ID references no existing
listing succeeds without error: the claim's status becomes Completed, the
DELETE statement matches no row (a no-op), and providers, receivers and
listings are untouched. -/
theorem C10_complete_dangling (s : DBState) (c : Claim)
    (hc : c ∈ s.claims) (hp : c.status = ClaimStatus.Pending)
    (hr : receiverExists s c.receiverId = true)
    (hnd : (s.claims.map (fun x => x.claimId)).Nodup)
    (hnl : ∀ l ∈ s.listings, l.foodId ≠ c.foodId) :
    ∃ s', completeClaim s c.claimId = Except.ok s' ∧
      s'.providers = s.providers ∧ s'.receivers = s.receivers ∧
      s'.listings = s.listings ∧
      s'.claims = s.claims.map (fun c2 => if c2.claimId == c.claimId
        then { c2 with status := ClaimStatus.Completed } else c2) ∧
      { c with status := ClaimStatus.Completed } ∈ s'.claims := by
  have hmem := mem_pendingClaimIds s c hc hp hr
  have hfc := findClaim_eq s c hc hnd
  have hfilt : s.listings.filter (fun l => !(l.foodId == c.foodId)) = s.listings :=
    List.filter_eq_self.mpr (fun l hl => by simpa using hnl l hl)
  unfold completeClaim
  rw [if_pos hmem, hfc]
  refine ⟨_, rfl, rfl, rfl, hfilt, rfl, ?_⟩
  exact List.mem_map.mpr ⟨c, hc, by simp⟩

/-- Witness for C10: completing the dangling claim 1 of `sDangling`. -/
theorem C10_witness :
    ∃ s', completeClaim sDangling (demoClaim 1 7 ClaimStatus.Pending).claimId =
        Except.ok s' ∧
      s'.providers = sDangling.providers ∧ s'.receivers = sDangling.receivers ∧
      s'.listings = sDangling.listings ∧
      s'.claims = sDangling.claims.map (fun c2 =>
        if c2.claimId == (demoClaim 1 7 ClaimStatus.Pending).claimId
        then { c2 with status := ClaimStatus.Completed } else c2) ∧
      { demoClaim 1 7 ClaimStatus.Pending with status := ClaimStatus.Completed } ∈
        s'.claims :=
  C10_complete_dangling sDangling (demoClaim 1 7 ClaimStatus.Pending)
    (by decide) (by decide) (by decide) (by decide) (by decide)

theorem chooseReceiver_eq_none {rs : List Receiver} {pick : Nat}
    (h : chooseReceiver rs pick = none) : rs = [] := by
  by_contra hne
  have hlen : 0 < rs.length := List.length_pos.mpr hne
  have hlt : pick % rs.length < rs.length := Nat.mod_lt _ hlen
  rw [chooseReceiver, List.getElem?_eq_getElem hlt] at h
  cases h

theorem chooseReceiver_mem {rs : List Receiver} {pick : Nat} {r : Receiver}
    (h : chooseReceiver rs pick = some r) : r ∈ rs := by
  unfold chooseReceiver at h
  exact List.mem_iff_getElem?.mpr ⟨_, h⟩

theorem chooseReceiver_surj (rs : List Receiver) (r : Receiver) (hr : r ∈ rs) :
    ∃ k, chooseReceiver rs k = some r := by
  rcases List.mem_iff_getElem.mp hr with ⟨i, hi, he⟩
  refine ⟨i, ?_⟩
  rw [chooseReceiver, Nat.mod_eq_of_lt hi, List.getElem?_eq_getElem hi, he]

/-- Claim C7: a successful create appends exactly one new listing, whose
Food_ID is the freshly assigned rowid.  If at least one receiver exists,
exactly one new claim is appended: status Pending, referencing the new
listing's Food_ID and a receiver drawn from the Receivers table — and every
existing receiver is a possible draw (`random.choice` over the full receiver
list, modelled by the `pick` argument).  If no receivers exist, the claims
table is unchanged. -/
theorem C7_create_assigns_claim (s s' : DBState) (today : Nat) (pn fn : String)
    (qty : Int) (expiry : Nat) (ft mt : String) (pick : Nat)
    (hok : addListing s today pn fn qty expiry ft mt pick = Except.ok s') :
    (∃ nl, s'.listings = s.listings ++ [nl] ∧ nl.foodId = nextFoodId s) ∧
    (s.receivers = [] → s'.claims = s.claims) ∧
    (s.receivers ≠ [] →
      ∃ r, chooseReceiver s.receivers pick = some r ∧ r ∈ s.receivers ∧
        s'.claims = s.claims ++
          [{ claimId := nextClaimId s, foodId := nextFoodId s,
             receiverId := r.receiverId, status := ClaimStatus.Pending,
             timestamp := today }]) ∧
    (∀ r ∈ s.receivers, ∃ k, chooseReceiver s.receivers k = some r) := by
  unfold addListing at hok
  split at hok
  · cases hok
  split at hok
  · cases hok
  split at hok
  · cases hok
  split at hok
  · cases hok
  split at hok
  · cases hok
  split at hok
  case _ heq =>
    cases hok
    have hnil := chooseReceiver_eq_none heq
    refine ⟨⟨_, rfl, rfl⟩, fun _ => rfl, fun hne => absurd hnil hne, ?_⟩
    intro r hr
    exact chooseReceiver_surj s.receivers r hr
  case _ r heq =>
    cases hok
    refine ⟨⟨_, rfl, rfl⟩, ?_, ?_, ?_⟩
    · intro hnil
      rw [hnil] at heq
      cases heq
    · exact fun _ => ⟨r, heq, chooseReceiver_mem heq, rfl⟩
    · intro r2 hr2
      exact chooseReceiver_surj s.receivers r2 hr2

/-- Empty database with one provider and one receiver, ready for a create. -/
def sCreate : DBState :=
  { providers := [demoProvider], receivers := [demoReceiver],
    listings := [], claims := [] }

/-- The state produced by the witness create below: listing 1 plus one
Pending claim on it. -/
def addListingOut : DBState :=
  { providers := [demoProvider], receivers := [demoReceiver],
    listings := [{ foodId := 1, foodName := "Rice", quantity := 5,
                   expiryDate := 12, providerId := 1,
                   providerType := "Restaurant", location := "Austin",
                   foodType := "Vegetarian", mealType := "Lunch" }],
    claims := [{ claimId := 1, foodId := 1, receiverId := 1,
                 status := ClaimStatus.Pending, timestamp := 10 }] }

/-- Witness for C7: creating a listing in `sCreate` on day 10 with expiry
day 12 appends listing 1 and one Pending claim assigned to receiver 1. -/
theorem C7_witness :
    (∃ nl, (addListingOut).listings = sCreate.listings ++ [nl] ∧
      nl.foodId = nextFoodId sCreate) ∧
    (sCreate.receivers = [] → (addListingOut).claims = sCreate.claims) ∧
    (sCreate.receivers ≠ [] →
      ∃ r, chooseReceiver sCreate.receivers 0 = some r ∧ r ∈ sCreate.receivers ∧
        (addListingOut).claims = sCreate.claims ++
          [{ claimId := nextClaimId sCreate, foodId := nextFoodId sCreate,
             receiverId := r.receiverId, status := ClaimStatus.Pending,
             timestamp := 10 }]) ∧
    (∀ r ∈ sCreate.receivers, ∃ k, chooseReceiver sCreate.receivers k = some r) :=
  C7_create_assigns_claim sCreate addListingOut 10 "P" "Rice" 5 12
    "Vegetarian" "Lunch" 0 (by rfl)

/-- Claim C8: deleting a provider removes every Food_Listing owned by that
provider and, transitively, every Claim referencing any of those listings
(and the provider row itself).  Settled against `deleteProvider`, which is
modelled from the spec because the application has no provider-deletion
operation; only the schema's ON DELETE CASCADE declarations exist in the
source. -/
theorem C8_provider_cascade (s : DBState) (pid : Nat) :
    (∀ p ∈ s.providers, p.providerId = pid → p ∉ (deleteProvider s pid).providers) ∧
    (∀ l ∈ s.listings, l.providerId = pid → l ∉ (deleteProvider s pid).listings) ∧
    (∀ c ∈ s.claims,
      (∃ l ∈ s.listings, l.providerId = pid ∧ c.foodId = l.foodId) →
        c ∉ (deleteProvider s pid).claims) := by
  simp only [deleteProvider]
  refine ⟨?_, ?_, ?_⟩
  · intro p _ hpe hmem
    have h2 := (List.mem_filter.mp hmem).2
    simp [hpe] at h2
  · intro l _ hpe hmem
    have h2 := (List.mem_filter.mp hmem).2
    simp [hpe] at h2
  · intro c _ hex hmem
    rcases hex with ⟨l, hl, hlp, hcf⟩
    have h2 := (List.mem_filter.mp hmem).2
    have hin : c.foodId ∈
        (s.listings.filter (fun l2 => l2.providerId == pid)).map
          (fun l2 => l2.foodId) :=
      List.mem_map.mpr ⟨l, List.mem_filter.mpr ⟨hl, by simp [hlp]⟩, hcf.symm⟩
    have h3 : ((s.listings.filter (fun l2 => l2.providerId == pid)).map
        (fun l2 => l2.foodId)).contains c.foodId = true :=
      List.elem_eq_true_of_mem hin
    rw [h3] at h2
    simp at h2

/-- Provider 1 owning listing 1, which claim 1 references. -/
def sOwned : DBState :=
  { providers := [demoProvider], receivers := [demoReceiver],
    listings := [demoListing 1 5 100],
    claims := [demoClaim 1 1 ClaimStatus.Pending] }

/-- Witness for C8: deleting provider 1 of `sOwned` removes the provider,
listing 1 and claim 1. -/
theorem C8_witness :
    (∀ p ∈ sOwned.providers, p.providerId = 1 →
      p ∉ (deleteProvider sOwned 1).providers) ∧
    (∀ l ∈ sOwned.listings, l.providerId = 1 →
      l ∉ (deleteProvider sOwned 1).listings) ∧
    (∀ c ∈ sOwned.claims,
      (∃ l ∈ sOwned.listings, l.providerId = 1 ∧ c.foodId = l.foodId) →
        c ∉ (deleteProvider sOwned 1).claims) :=
  C8_provider_cascade sOwned 1

/-- Claim C6: in every reachable database state every existing Food_Listings
row has strictly positive Quantity.  Reachability closes an initial state
satisfying the CHECK constraint under all five mutating operations (create,
update, delete, complete, cancel), so the proof shows each operation
preserves the invariant: creation and update are guarded by the store's
`CHECK (Quantity > 0)`, and the remaining operations never write a
quantity. -/
theorem C6_quantity_positive (s : DBState) (h : Reachable s) : quantityInv s := by
  induction h with
  | boot s hs => exact hs
  | create s s' today pn fn qty expiry ft mt pick _ heq ih =>
      unfold addListing at heq
      split at heq
      · cases heq
      split at heq
      · cases heq
      split at heq
      · cases heq
      split at heq
      · cases heq
      split at heq
      · cases heq
      rename_i hq
      split at heq <;> cases heq <;> intro l hl <;>
        rcases List.mem_append.mp hl with h1 | h1
      · exact ih l h1
      · rcases List.mem_singleton.mp h1 with rfl
        simp only
        omega
      · exact ih l h1
      · rcases List.mem_singleton.mp h1 with rfl
        simp only
        omega
  | update s s' today fid qty expiry _ heq ih =>
      unfold updateListing at heq
      split at heq
      · cases heq
      split at heq
      · cases heq
      split at heq
      · cases heq
      rename_i hq
      cases heq
      intro l hl
      rcases List.mem_map.mp hl with ⟨l0, hl0, rfl⟩
      by_cases hid : (l0.foodId == fid) = true
      · simp only [hid, if_true]
        omega
      · simp only [hid, if_false]
        exact ih l0 hl0
  | delete s s' fid _ heq ih =>
      unfold deleteListing at heq
      split at heq
      · cases heq
      cases heq
      intro l hl
      exact ih l (List.mem_filter.mp hl).1
  | complete s s' cid _ heq ih =>
      unfold completeClaim at heq
      split at heq
      · split at heq
        · cases heq
        · cases heq
          intro l hl
          exact ih l (List.mem_filter.mp hl).1
      · cases heq
  | cancel s s' today cid _ heq ih =>
      unfold cancelClaim at heq
      split at heq
      · split at heq
        · cases heq
        · split at heq
          · cases heq
            intro l hl
            exact ih l hl
          · split at heq
            · cases heq
              intro l hl
              exact ih l (List.mem_filter.mp hl).1
            · cases heq
              intro l hl
              exact ih l hl
      · cases heq

/-- Witness for C6: `sSiblings` is reachable (it satisfies the bootstrap
CHECK constraint) and its listings all have positive quantity. -/
theorem C6_witness : quantityInv sSiblings :=
  C6_quantity_positive sSiblings (Reachable.boot sSiblings (by decide))

end FoodWaste
